import Mathlib

/-!
# Verification of the chat relay in `integrated_app.py` (`ChatModule`)

Shallow embedding of the chat server core of the repository's
`integrated_app.py`.  Sockets are modelled by numeric identifiers (Python's
`is` identity test on socket objects becomes equality of identifiers), byte
strings arriving from the network are modelled by the `String` they decode to
(`decode("utf-8", errors="ignore")` is applied by the caller of the model),
and the outcome of a `sendall` on a given socket is modelled by a boolean
oracle `writeOk`.  The three logging sinks used by the code (`print`, the
error manager and the chat log file) always receive the same text, so they
are collapsed into a single `log` action in the traces produced by the
handler model.
-/

namespace IntegratedApp

/-- A socket / session identity.  Python compares sockets with `is`;
distinct socket objects get distinct identifiers, so identity becomes
equality of naturals. -/
abbrev Sock := Nat

/-- Python `s.rstrip("\n")`: remove every trailing newline character
(and only trailing ones), as used on each received chunk in
`ChatModule._handle_client` line 429. -/
def pyRstripNL (s : String) : String :=
  ((s.toList.reverse.dropWhile (fun c => c == '\n')).reverse).asString

/-- Python `s.strip()`: remove leading and trailing whitespace, as used on
the handshake line in `ChatModule._handle_client` line 413. -/
def pyStrip (s : String) : String :=
  (((s.toList.dropWhile Char.isWhitespace).reverse.dropWhile
      Char.isWhitespace).reverse).asString

/-- Result of one call to `ChatModule._broadcast` (lines 391-408):
`attempted` are the registered sockets the loop tried to write to (everyone
but the sender, in registry order), `delivered` those whose `sendall`
succeeded, `dead` those whose `sendall` raised `OSError`, `closedSocks` the
sockets the purge closed, and `clients` the registry after the purge. -/
structure BroadcastResult where
  attempted : List Sock
  delivered : List Sock
  dead : List Sock
  closedSocks : List Sock
  clients : List Sock
  deriving DecidableEq, Repr

/-- `ChatModule._broadcast(sender, payload)` (lines 391-408).  The loop
walks the registry, skips the socket that `is sender`, and tries
`client.sendall(payload)`; an `OSError` puts the client on the `dead` list
and the loop continues.  After the pass, every dead client is closed and
removed from the registry with `self._clients.remove(client)` (first
occurrence, guarded by membership — `List.erase` has exactly these
semantics).  `OSError`s from `sendall` and `close` are caught, so the
function itself never raises: it is total here. -/
def broadcast (sender : Option Sock) (payload : String)
    (writeOk : Sock → String → Bool) (clients : List Sock) : BroadcastResult :=
  let recipients := clients.filter (fun c => decide (some c ≠ sender))
  let deadList := recipients.filter (fun c => !writeOk c payload)
  { attempted := recipients
    delivered := recipients.filter (fun c => writeOk c payload)
    dead := deadList
    closedSocks := deadList
    clients := deadList.foldl (fun cs d => cs.erase d) clients }

/-- One observation of the receive loop of `ChatModule._handle_client`
(lines 421-436) per iteration: the stop event was found set at the top of
the loop; `conn.recv` raised `socket.timeout` (the loop continues);
`conn.recv` raised another `OSError` (for instance because the socket was
closed by the broadcast purge — the exception leaves the loop and the
`finally` block runs); or `conn.recv` returned `data` (decoded), where
`data = ""` models the zero-length read of a peer that closed. -/
inductive RecvEvent where
  | stopSet
  | timeout
  | readErr
  | recv (data : String)
  deriving DecidableEq, Repr

/-- An observable action of the server code: a line handed to the three
logging sinks, a call to `_broadcast` with its sender and payload, removal
of a socket from the registry, or closing of a socket. -/
inductive Action where
  | log (text : String)
  | bcast (sender : Option Sock) (payload : String)
  | unregister (conn : Sock)
  | closeConn (conn : Sock)
  deriving DecidableEq, Repr

/-- The fallback identity `f"{addr[0]}:{addr[1]}"` used when the handshake
yields no usable nickname (line 413 and 415). -/
def fallbackName (ip : String) (port : Nat) : String :=
  ip ++ ":" ++ toString port

/-- Python's rendering of the address tuple in `f"... from {addr}"`
(line 416); the quotes Python prints around the host string are omitted,
no claim depends on the exact rendering. -/
def addrRepr (ip : String) (port : Nat) : String :=
  "(" ++ ip ++ ", " ++ toString port ++ ")"

/-- Nickname resolution of `_handle_client` lines 411-415:
`name_data.decode("utf-8", errors="ignore").strip() or fallback`, with the
whole `recv` wrapped in `try/except` — `none` models the read raising.
An empty or whitespace-only (or undecodable, hence empty after the
permissive decode) first line falls back, silently. -/
def handshakeName (readResult : Option String) (ip : String) (port : Nat) :
    String :=
  match readResult with
  | none => fallbackName ip port
  | some data =>
      let n := pyStrip data
      if n = "" then fallbackName ip port else n

/-- The join announcement `f"* {name} joined from {addr}"` (line 416). -/
def joinMsg (name ip : String) (port : Nat) : String :=
  "* " ++ name ++ " joined from " ++ addrRepr ip port

/-- The leave announcement `f"* {name} left"` (line 438). -/
def leaveMsg (name : String) : String :=
  "* " ++ name ++ " left"

/-- The receive loop of `_handle_client` (lines 422-436) run over a finite
script of observations.  `while not self._stop_event.is_set()` exits on
`stopSet`; `socket.timeout` continues; any other read error propagates out
of the loop (only `socket.timeout` is caught inside it); a zero-length read
breaks; a chunk whose `rstrip("\n")` equals `/quit` breaks without logging
or broadcasting; any other chunk — the code performs no line splitting —
is logged as `f"{name}: {text}"` and handed to `_broadcast` with the
session's own socket as sender.  An exhausted script ends the loop (the
session blocked forever otherwise; the claims concern sessions whose loop
terminates). -/
def chatLoop (name : String) (conn : Sock) : List RecvEvent → List Action
  | [] => []
  | RecvEvent.stopSet :: _ => []
  | RecvEvent.timeout :: rest => chatLoop name conn rest
  | RecvEvent.readErr :: _ => []
  | RecvEvent.recv data :: rest =>
      if data = "" then []
      else
        let text := pyRstripNL data
        if text = "/quit" then []
        else
          Action.log (name ++ ": " ++ text)
            :: Action.bcast (some conn) (name ++ ": " ++ text ++ "\n")
            :: chatLoop name conn rest

/-- `ChatModule._handle_client` (lines 410-449) as the trace of actions of
one session: handshake, join announcement (logged, then broadcast with the
session's own socket as sender), the receive loop, and the `finally` block
(lines 437-449) which — on every exit path — logs the leave announcement,
removes the socket from the registry, closes it, and broadcasts the leave
announcement with the session's own socket as sender. -/
def handleClient (conn : Sock) (ip : String) (port : Nat)
    (hsRead : Option String) (script : List RecvEvent) : List Action :=
  let name := handshakeName hsRead ip port
  (Action.log (joinMsg name ip port)
      :: Action.bcast (some conn) (joinMsg name ip port ++ "\n")
      :: chatLoop name conn script)
    ++ [Action.log (leaveMsg name),
        Action.unregister conn,
        Action.closeConn conn,
        Action.bcast (some conn) (leaveMsg name ++ "\n")]

/-- The steps the accept loop of `ChatModule._server_loop` performs for one
accepted connection (lines 463-476), in program order: the socket is
appended to `self._clients` under the lock, and only then is the handler
thread — which performs the handshake — started. -/
inductive ServerEvent where
  | registerClient (conn : Sock)
  | spawnHandler (conn : Sock)
  deriving DecidableEq, Repr

/-- One iteration of the accept loop that accepted `conn` (lines 473-476):
the new registry and the ordered steps taken. -/
def acceptIteration (clients : List Sock) (conn : Sock) :
    List Sock × List ServerEvent :=
  (clients ++ [conn],
    [ServerEvent.registerClient conn, ServerEvent.spawnHandler conn])

/-- The mutable state of a `ChatModule` relevant to start/stop:
whether `self._server_thread` exists and `is_alive()`, the
`self._stop_event` flag, the `self._server_ready` flag, and
`self._clients`. -/
structure ChatState where
  serverAlive : Bool
  stopEvent : Bool
  serverReady : Bool
  clients : List Sock
  deriving DecidableEq, Repr

/-- The state a fresh `ChatModule.__init__` leaves behind (lines 379-383). -/
def initState : ChatState :=
  { serverAlive := false, stopEvent := false, serverReady := false,
    clients := [] }

/-- Outcome reported by `stop_server` (lines 502-512): either the
"Chat server is not running." no-op report or the "Chat server stopped."
report.  The function has no raising path.  (The "did not shut down
cleanly" warning branch is a wall-clock race on `join(timeout=3)`; in this
sequential model the accept loop — which polls with a one-second timeout —
always observes the stop event, so the join completes; even in the code
that branch only prints a warning and raises nothing.) -/
inductive StopOutcome where
  | notRunning
  | stopped
  deriving DecidableEq, Repr

/-- `ChatModule.stop_server` (lines 502-512) composed with the shutdown the
server loop then performs (lines 477-487): if no server thread is alive the
call reports a no-op and changes nothing; otherwise the stop event is set,
the accept loop observes it and exits, and its `finally` closes every
registered socket, clears the registry and clears the ready flag, after
which the join returns and the thread is no longer alive. -/
def stopServer (st : ChatState) : ChatState × StopOutcome :=
  if st.serverAlive then
    ({ serverAlive := false, stopEvent := true, serverReady := false,
       clients := [] },
      StopOutcome.stopped)
  else
    (st, StopOutcome.notRunning)

/-- Outcome reported by `start_server` (lines 489-500). -/
inductive StartOutcome where
  | alreadyRunning
  | started
  | failedStart
  deriving DecidableEq, Repr

/-- `ChatModule.start_server` (lines 489-500) composed with the startup of
the server loop: if the server thread is alive the call only prints
"Chat server is already running." and returns — no second thread, the stop
event is not cleared, the registry untouched.  Otherwise the stop event is
cleared and the loop thread started; `bindOk` tells whether bind/listen
succeed, in which case the ready event is set, else the loop's `finally`
clears the registry and the ready flag and the thread dies. -/
def startServer (bindOk : Bool) (st : ChatState) : ChatState × StartOutcome :=
  if st.serverAlive then
    (st, StartOutcome.alreadyRunning)
  else if bindOk then
    ({ serverAlive := true, stopEvent := false, serverReady := true,
       clients := st.clients },
      StartOutcome.started)
  else
    ({ serverAlive := false, stopEvent := false, serverReady := false,
       clients := [] },
      StartOutcome.failedStart)

/- ------------------------------------------------------------------ -/
/- Helper lemmas                                                      -/
/- ------------------------------------------------------------------ -/

theorem mem_broadcast_attempted (sender : Option Sock) (payload : String)
    (w : Sock → String → Bool) (clients : List Sock) (c : Sock) :
    c ∈ (broadcast sender payload w clients).attempted ↔
      c ∈ clients ∧ some c ≠ sender := by
  simp [broadcast, List.mem_filter]

theorem mem_broadcast_delivered (sender : Option Sock) (payload : String)
    (w : Sock → String → Bool) (clients : List Sock) (c : Sock) :
    c ∈ (broadcast sender payload w clients).delivered ↔
      c ∈ clients ∧ some c ≠ sender ∧ w c payload = true := by
  simp only [broadcast, List.mem_filter, decide_eq_true_eq]
  tauto

theorem sender_not_mem_delivered (s : Sock) (payload : String)
    (w : Sock → String → Bool) (clients : List Sock) :
    s ∉ (broadcast (some s) payload w clients).delivered := by
  simp [mem_broadcast_delivered]

theorem sender_not_mem_attempted (s : Sock) (payload : String)
    (w : Sock → String → Bool) (clients : List Sock) :
    s ∉ (broadcast (some s) payload w clients).attempted := by
  simp [mem_broadcast_attempted]

theorem mem_foldl_erase_iff (toRemove : List Sock) (l : List Sock)
    (hnd : l.Nodup) (x : Sock) :
    x ∈ toRemove.foldl (fun cs d => cs.erase d) l ↔
      x ∈ l ∧ x ∉ toRemove := by
  induction toRemove generalizing l with
  | nil => simp
  | cons d ds ih =>
      simp only [List.foldl_cons]
      rw [ih (l.erase d) (hnd.erase d)]
      rw [hnd.mem_erase_iff]
      simp only [List.mem_cons]
      tauto

theorem length_foldl_erase (toRemove : List Sock) (l : List Sock)
    (hnd : toRemove.Nodup) (hsub : ∀ d ∈ toRemove, d ∈ l) :
    (toRemove.foldl (fun cs d => cs.erase d) l).length + toRemove.length
      = l.length := by
  induction toRemove generalizing l with
  | nil => simp
  | cons d ds ih =>
      simp only [List.foldl_cons, List.length_cons]
      have hdl : d ∈ l := hsub d (List.mem_cons_self d ds)
      have hds : ∀ e ∈ ds, e ∈ l.erase d := by
        intro e he
        have hne : e ≠ d := by
          intro hcontra
          exact (List.nodup_cons.mp hnd).1 (hcontra ▸ he)
        exact (List.mem_erase_of_ne hne).mpr (hsub e (List.mem_cons_of_mem d he))
      have hrec := ih (l.erase d) (List.nodup_cons.mp hnd).2 hds
      have hlen : (l.erase d).length = l.length - 1 :=
        List.length_erase_of_mem hdl
      have hpos : 0 < l.length := List.length_pos_of_mem hdl
      omega

theorem broadcast_dead_nodup (sender : Option Sock) (payload : String)
    (w : Sock → String → Bool) (clients : List Sock) (hnd : clients.Nodup) :
    (broadcast sender payload w clients).dead.Nodup := by
  simp only [broadcast]
  exact (hnd.filter _).filter _

theorem broadcast_dead_subset (sender : Option Sock) (payload : String)
    (w : Sock → String → Bool) (clients : List Sock) :
    ∀ d ∈ (broadcast sender payload w clients).dead, d ∈ clients := by
  intro d hd
  simp only [broadcast, List.mem_filter] at hd
  exact hd.1.1

theorem chatLoop_bcast_sender (name : String) (conn : Sock)
    (script : List RecvEvent) (s : Option Sock) (p : String)
    (hmem : Action.bcast s p ∈ chatLoop name conn script) : s = some conn := by
  induction script with
  | nil => simp [chatLoop] at hmem
  | cons ev rest ih =>
      cases ev with
      | stopSet => simp [chatLoop] at hmem
      | timeout => exact ih (by simpa [chatLoop] using hmem)
      | readErr => simp [chatLoop] at hmem
      | recv data =>
          simp only [chatLoop] at hmem
          by_cases h0 : data = ""
          · simp [h0] at hmem
          · simp only [h0, if_false] at hmem
            by_cases hq : pyRstripNL data = "/quit"
            · simp [hq] at hmem
            · simp only [hq, if_false, List.mem_cons] at hmem
              rcases hmem with h | h | h
              · cases h
              · cases h
                rfl
              · exact ih h

theorem handleClient_bcast_sender (conn : Sock) (ip : String) (port : Nat)
    (hsRead : Option String) (script : List RecvEvent) (s : Option Sock)
    (p : String)
    (hmem : Action.bcast s p ∈ handleClient conn ip port hsRead script) :
    s = some conn := by
  simp only [handleClient, List.mem_append, List.mem_cons] at hmem
  rcases hmem with (h | h | h) | h
  · cases h
  · cases h
    rfl
  · exact chatLoop_bcast_sender _ _ _ _ _ h
  · simp only [List.mem_cons, List.not_mem_nil, or_false] at h
    rcases h with h | h | h | h
    · cases h
    · cases h
    · cases h
    · cases h
      rfl

theorem mem_takeWhile_sat (p : Char → Bool) (l : List Char) (b : Char)
    (hb : b ∈ l.takeWhile p) : p b = true := by
  induction l with
  | nil => simp [List.takeWhile] at hb
  | cons x xs ih =>
      rw [List.takeWhile_cons] at hb
      by_cases hx : p x
      · rw [if_pos hx] at hb
        rcases List.mem_cons.mp hb with rfl | hb
        · exact hx
        · exact ih hb
      · rw [if_neg hx] at hb
        simp at hb

theorem pyRstripNL_decomposition (s : String) :
    ∃ k, s.toList = (pyRstripNL s).toList ++ List.replicate k '\n' := by
  refine ⟨(s.toList.reverse.takeWhile (fun c => c == '\n')).length, ?_⟩
  show s.toList
      = (s.toList.reverse.dropWhile (fun c => c == '\n')).reverse
        ++ List.replicate
            (s.toList.reverse.takeWhile (fun c => c == '\n')).length '\n'
  have hall : ∀ b ∈ s.toList.reverse.takeWhile (fun c => c == '\n'),
      b = '\n' := fun b hb => eq_of_beq (mem_takeWhile_sat _ _ b hb)
  have hrepl := List.eq_replicate_of_mem hall
  calc s.toList = s.toList.reverse.reverse := (List.reverse_reverse _).symm
    _ = (s.toList.reverse.takeWhile (fun c => c == '\n')
          ++ s.toList.reverse.dropWhile (fun c => c == '\n')).reverse := by
          rw [List.takeWhile_append_dropWhile]
    _ = (s.toList.reverse.dropWhile (fun c => c == '\n')).reverse
          ++ (s.toList.reverse.takeWhile (fun c => c == '\n')).reverse := by
          rw [List.reverse_append]
    _ = (s.toList.reverse.dropWhile (fun c => c == '\n')).reverse
          ++ List.replicate
              (s.toList.reverse.takeWhile (fun c => c == '\n')).length '\n' := by
          rw [hrepl, List.reverse_replicate, List.length_replicate]

theorem pyRstripNL_last_not_newline (s : String) :
    (pyRstripNL s).toList.getLast? ≠ some '\n' := by
  have h := List.head?_dropWhile_not (fun c => c == '\n') s.toList.reverse
  show ((s.toList.reverse.dropWhile (fun c => c == '\n')).reverse).getLast?
      ≠ some '\n'
  rw [List.getLast?_reverse]
  revert h
  cases (s.toList.reverse.dropWhile (fun c => c == '\n')).head? with
  | none => simp
  | some x =>
      intro h hx
      rw [Option.some.injEq] at hx
      rw [hx] at h
      simp at h

/- ------------------------------------------------------------------ -/
/- Claim theorems                                                     -/
/- ------------------------------------------------------------------ -/

/-- C1: for every call to `_broadcast` with a sender session and a payload,
the payload is never delivered to — nor even attempted at — the sender
itself, whatever the payload, the transport behaviour and the registry
contents: sender exclusion is absolute. -/
theorem broadcast_never_reaches_sender (s : Sock) (payload : String)
    (w : Sock → String → Bool) (clients : List Sock) :
    s ∉ (broadcast (some s) payload w clients).delivered ∧
      s ∉ (broadcast (some s) payload w clients).attempted :=
  ⟨sender_not_mem_delivered s payload w clients,
    sender_not_mem_attempted s payload w clients⟩

/-- C2: on a duplicate-free registry, a write failure on one recipient does
not abort delivery to the others (every other non-sender recipient whose
write succeeds is delivered to), and each failed recipient is closed,
removed from the registry, never attempted by a broadcast on the purged
registry, and the purge removes exactly one registry entry per dead
recipient; `_broadcast` catches the `OSError`s, so the broadcaster sees no
error (the model is a total function). -/
theorem broadcast_write_failure_cleanup (sender : Option Sock)
    (payload : String) (w : Sock → String → Bool) (clients : List Sock)
    (hnd : clients.Nodup) :
    (∀ c ∈ clients, some c ≠ sender → w c payload = true →
        c ∈ (broadcast sender payload w clients).delivered)
    ∧ (∀ d ∈ (broadcast sender payload w clients).dead,
        d ∈ (broadcast sender payload w clients).closedSocks
        ∧ d ∉ (broadcast sender payload w clients).clients
        ∧ ∀ s' p' w', d ∉ (broadcast s' p' w'
            ((broadcast sender payload w clients).clients)).attempted)
    ∧ (broadcast sender payload w clients).clients.length
        + (broadcast sender payload w clients).dead.length
        = clients.length := by
  refine ⟨?_, ?_, ?_⟩
  · intro c hc hs hw
    exact (mem_broadcast_delivered sender payload w clients c).mpr ⟨hc, hs, hw⟩
  · intro d hd
    have hclosed : d ∈ (broadcast sender payload w clients).closedSocks := by
      simpa [broadcast] using hd
    have hafter : d ∉ (broadcast sender payload w clients).clients := by
      show d ∉ (broadcast sender payload w clients).dead.foldl
        (fun cs e => cs.erase e) clients
      rw [mem_foldl_erase_iff _ clients hnd d]
      intro hcontra
      exact hcontra.2 hd
    refine ⟨hclosed, hafter, ?_⟩
    intro s' p' w' hcontra
    exact hafter ((mem_broadcast_attempted s' p' w' _ d).mp hcontra).1
  · exact length_foldl_erase _ clients
      (broadcast_dead_nodup sender payload w clients hnd)
      (broadcast_dead_subset sender payload w clients)

/-- C2 witness: registry `[0, 1, 2]`, sender `0`, the write to `1` fails;
the theorem applies and in particular the purged registry plus the dead
list account for all three entries. -/
theorem broadcast_write_failure_cleanup_witness :
    (broadcast (some 0) "m" (fun c _ => c != 1) [0, 1, 2]).clients.length
      + (broadcast (some 0) "m" (fun c _ => c != 1) [0, 1, 2]).dead.length
      = 3 :=
  (broadcast_write_failure_cleanup (some 0) "m" (fun c _ => c != 1) [0, 1, 2]
    (by decide)).2.2

/-- C3 counterexample: the join announcement of a session is broadcast by
`_handle_client` with the session's own socket as sender (not `none`), and
with registry `[0, 1]` and healthy transports the announced session `0` is
not among the delivered recipients — contradicting the claim that join and
leave announcements are broadcast with sender `none` and so reach everyone,
the announced session included. -/
theorem join_announcement_sender_not_none_cx :
    (handleClient 0 "127.0.0.1" 5000 (some "alice") []).get? 1
      = some (Action.bcast (some 0) "* alice joined from (127.0.0.1, 5000)\n")
    ∧ (broadcast (some 0) "* alice joined from (127.0.0.1, 5000)\n"
        (fun _ _ => true) [0, 1]).delivered = [1] := by
  constructor
  · rfl
  · rfl

/-- C3 amended: every broadcast issued by `_handle_client` — the join and
leave announcements included — carries the session's own socket as sender,
so an announcement is delivered (at most) to the other registered sessions
and never to the session it is about. -/
theorem announcement_excludes_announced_session (conn : Sock) (ip : String)
    (port : Nat) (hsRead : Option String) (script : List RecvEvent)
    (s : Option Sock) (p : String)
    (hmem : Action.bcast s p ∈ handleClient conn ip port hsRead script)
    (w : Sock → String → Bool) (cs : List Sock) :
    s = some conn ∧ conn ∉ (broadcast s p w cs).delivered := by
  have hs := handleClient_bcast_sender conn ip port hsRead script s p hmem
  subst hs
  exact ⟨rfl, sender_not_mem_delivered conn p w cs⟩

/-- C3 amended witness: the join announcement of session `0` (nickname
`alice`) is excluded from delivery to `0` on the registry `[0, 1]`. -/
theorem announcement_excludes_announced_session_witness :
    some 0 = some 0
    ∧ (0 : Sock) ∉ (broadcast (some 0)
        "* alice joined from (127.0.0.1, 5000)\n"
        (fun _ _ => true) [0, 1]).delivered :=
  announcement_excludes_announced_session 0 "127.0.0.1" 5000 (some "alice")
    [] (some 0) "* alice joined from (127.0.0.1, 5000)\n"
    (by decide) (fun _ _ => true) [0, 1]

/-- C4 counterexample: after the accept-loop iteration for socket `0` the
registry already contains `0`, and the handler thread — whose first work is
the handshake — is only spawned as the later of the two recorded steps: the
session is registered on accept, before its handshake completes,
contradicting the claim that registration waits for the handshake. -/
theorem registration_precedes_handshake_cx :
    0 ∈ (acceptIteration [] 0).1
    ∧ (acceptIteration [] 0).2
        = [ServerEvent.registerClient 0, ServerEvent.spawnHandler 0] := by
  constructor
  · decide
  · rfl

/-- C4 amended: on accept the session is immediately appended to the
registry, and only then is the handler spawned; the handler (on handshake
success and fallback alike) then logs the join announcement and broadcasts
it before entering the receive loop. -/
theorem session_registered_on_accept (clients : List Sock) (conn : Sock)
    (ip : String) (port : Nat) (hsRead : Option String)
    (script : List RecvEvent) :
    conn ∈ (acceptIteration clients conn).1
    ∧ (acceptIteration clients conn).2
        = [ServerEvent.registerClient conn, ServerEvent.spawnHandler conn]
    ∧ (handleClient conn ip port hsRead script).take 2
        = [Action.log (joinMsg (handshakeName hsRead ip port) ip port),
           Action.bcast (some conn)
             (joinMsg (handshakeName hsRead ip port) ip port ++ "\n")] := by
  refine ⟨?_, rfl, rfl⟩
  simp [acceptIteration]

/-- C5 counterexample: a client that sends just an empty line (the chunk
`"\n"`) has it relayed — logged as `"alice: "` and broadcast — whereas the
claim says an empty line is not relayed. -/
theorem empty_line_relayed_cx :
    Action.bcast (some 0) "alice: \n"
      ∈ handleClient 0 "127.0.0.1" 5000 (some "alice") [RecvEvent.recv "\n"]
    ∧ Action.log "alice: "
      ∈ handleClient 0 "127.0.0.1" 5000 (some "alice")
          [RecvEvent.recv "\n"] := by
  constructor <;> decide

/-- C5 amended: in the receive loop, a zero-length read ends the loop with
nothing logged or broadcast; a chunk stripping to the literal `/quit` ends
the loop with nothing logged or broadcast; every other chunk — an empty
line included — is logged as `"<nickname>: <text>"` and handed to
`_broadcast` with the session's own socket as sender, hence never delivered
back to the sender. -/
theorem active_line_handling (name : String) (conn : Sock) (d : String)
    (rest : List RecvEvent) :
    (d = "" → chatLoop name conn (RecvEvent.recv d :: rest) = [])
    ∧ (d ≠ "" → pyRstripNL d = "/quit" →
        chatLoop name conn (RecvEvent.recv d :: rest) = [])
    ∧ (d ≠ "" → pyRstripNL d ≠ "/quit" →
        chatLoop name conn (RecvEvent.recv d :: rest)
          = Action.log (name ++ ": " ++ pyRstripNL d)
            :: Action.bcast (some conn)
                (name ++ ": " ++ pyRstripNL d ++ "\n")
            :: chatLoop name conn rest
        ∧ ∀ w cs, conn ∉ (broadcast (some conn)
            (name ++ ": " ++ pyRstripNL d ++ "\n") w cs).delivered) := by
  refine ⟨?_, ?_, ?_⟩
  · intro h0
    simp [chatLoop, h0]
  · intro h0 hq
    simp [chatLoop, h0, hq]
  · intro h0 hq
    refine ⟨by simp [chatLoop, h0, hq], ?_⟩
    intro w cs
    exact sender_not_mem_delivered conn _ w cs

/-- C5 amended witness: the line `"hi"` from `alice` is logged and
broadcast, and nothing else happens in that iteration. -/
theorem active_line_handling_witness :
    chatLoop "alice" 0 [RecvEvent.recv "hi\n"]
      = [Action.log "alice: hi", Action.bcast (some 0) "alice: hi\n"] := by
  have h := (active_line_handling "alice" 0 "hi\n" []).2.2 (by decide)
    (by decide)
  rw [h.1]
  rfl

/-- C6 counterexample: one read returning the two lines `"a\nb\n"` is
relayed as the single message `"alice: a\nb"`, whose text contains an
embedded newline — the ingress path performs no splitting of a chunk into
lines, contradicting the claim. -/
theorem multiline_chunk_relayed_cx :
    Action.log "alice: a\nb"
      ∈ handleClient 0 "127.0.0.1" 5000 (some "alice")
          [RecvEvent.recv "a\nb\n"]
    ∧ '\n' ∈ ("alice: a\nb").toList := by
  constructor <;> decide

/-- C6 amended: the text relayed for a received chunk is the chunk with
exactly its trailing run of newlines removed — the chunk decomposes as the
relayed text followed by newlines and the text does not end in a newline —
so the text is newline-free when each read returns at most one line, but a
read returning several lines yields one message that keeps the interior
newlines. -/
theorem relayed_text_trailing_stripped (name : String) (conn : Sock)
    (d : String) (rest : List RecvEvent) (h0 : d ≠ "")
    (hq : pyRstripNL d ≠ "/quit") :
    chatLoop name conn (RecvEvent.recv d :: rest)
      = Action.log (name ++ ": " ++ pyRstripNL d)
        :: Action.bcast (some conn) (name ++ ": " ++ pyRstripNL d ++ "\n")
        :: chatLoop name conn rest
    ∧ (∃ k, d.toList = (pyRstripNL d).toList ++ List.replicate k '\n')
    ∧ (pyRstripNL d).toList.getLast? ≠ some '\n' :=
  ⟨by simp [chatLoop, h0, hq], pyRstripNL_decomposition d,
    pyRstripNL_last_not_newline d⟩

/-- C6 amended witness: the chunk `"a\nb\n"` is relayed as `"alice: a\nb"`
(trailing newline stripped, interior newline kept). -/
theorem relayed_text_trailing_stripped_witness :
    chatLoop "alice" 0 [RecvEvent.recv "a\nb\n"]
      = [Action.log "alice: a\nb",
         Action.bcast (some 0) "alice: a\nb\n"] := by
  have h := relayed_text_trailing_stripped "alice" 0 "a\nb\n" []
    (by decide) (by decide)
  rw [h.1]
  rfl

/-- C7: `stop_server` on a module with no live server thread reports a
no-op ("Chat server is not running.") and changes nothing; a second
`stop_server` in a row is exactly such a no-op; the call always succeeds
(the model is total and `StopOutcome` has no error case); and after any
`stop_server` the registry is empty — when the server was not running
because the server loop's `finally` had already cleared it, which is the
invariant hypothesis. -/
theorem stop_server_idempotent_clears (st : ChatState)
    (hinv : st.serverAlive = false → st.clients = []) :
    (stopServer st).1.clients = []
    ∧ (st.serverAlive = false → stopServer st = (st, StopOutcome.notRunning))
    ∧ (stopServer (stopServer st).1).2 = StopOutcome.notRunning
    ∧ (stopServer (stopServer st).1).1 = (stopServer st).1 := by
  by_cases h : st.serverAlive
  · simp [stopServer, h]
  · have hb : st.serverAlive = false := by simpa using h
    simp [stopServer, hb, hinv hb]

/-- C7 witness: stopping a running server with one registered client leaves
an empty registry. -/
theorem stop_server_idempotent_clears_witness :
    (stopServer ⟨true, false, true, [5]⟩).1.clients = [] :=
  (stop_server_idempotent_clears ⟨true, false, true, [5]⟩ (by decide)).1

/-- C8: when the handshake read raises, or the first line is empty or
unparsable (it strips to nothing after the permissive decode), the nickname
silently becomes the fallback `"<remote-ip>:<remote-port>"` and the session
is not terminated: its trace proceeds to announce the join with the
fallback identity. -/
theorem handshake_fallback_identity (conn : Sock) (ip : String) (port : Nat)
    (script : List RecvEvent) (hsRead : Option String)
    (h : hsRead = none ∨ ∃ s, hsRead = some s ∧ pyStrip s = "") :
    handshakeName hsRead ip port = fallbackName ip port
    ∧ (handleClient conn ip port hsRead script).head?
        = some (Action.log (joinMsg (fallbackName ip port) ip port)) := by
  have hname : handshakeName hsRead ip port = fallbackName ip port := by
    rcases h with rfl | ⟨s, rfl, hs⟩
    · rfl
    · simp [handshakeName, hs]
  refine ⟨hname, ?_⟩
  simp [handleClient, hname]

/-- C8 witness: a whitespace-only first line from `10.0.0.1:4242` yields
the fallback identity. -/
theorem handshake_fallback_identity_witness :
    handshakeName (some "  ") "10.0.0.1" 4242 = "10.0.0.1:4242" := by
  have h := handshake_fallback_identity 0 "10.0.0.1" 4242 [] (some "  ")
    (Or.inr ⟨"  ", rfl, by decide⟩)
  rw [h.1]
  rfl

/-- C9 counterexample: with registry `[0, 1]`, a broadcast from session `1`
on which session `0`'s write fails purges `0` from the registry and closes
its socket; yet session `0`'s own handler — whose next `recv` on the closed
socket raises an `OSError` that escapes the loop — still logs and
broadcasts `"* alice left"` in its `finally` block.  A left announcement
*is* generated for a session removed due to a write failure, contradicting
the claim that none ever is. -/
theorem purged_session_still_announces_left_cx :
    (broadcast (some 1) "bob: hi\n" (fun c _ => c != 0) [0, 1]).dead = [0]
    ∧ (broadcast (some 1) "bob: hi\n" (fun c _ => c != 0) [0, 1]).clients
        = [1]
    ∧ Action.log "* alice left"
        ∈ handleClient 0 "127.0.0.1" 5000 (some "alice") [RecvEvent.readErr]
    ∧ Action.bcast (some 0) "* alice left\n"
        ∈ handleClient 0 "127.0.0.1" 5000 (some "alice")
            [RecvEvent.readErr] := by
  refine ⟨rfl, rfl, ?_, ?_⟩ <;> decide

/-- C9 amended: the broadcast-time purge itself emits no announcement, but
every session whose receive loop terminates — the write-failure path (a
read error on the purged, closed socket) as much as the voluntary `/quit`
path — logs and broadcasts `"* <nickname> left"` in its guaranteed
teardown; a write-failure removal therefore ends in the same left
announcement a voluntary quit does, only deferred to the session's own
teardown. -/
theorem session_teardown_always_announces_left (conn : Sock) (ip : String)
    (port : Nat) (hsRead : Option String) (script : List RecvEvent) :
    Action.log (leaveMsg (handshakeName hsRead ip port))
        ∈ handleClient conn ip port hsRead script
    ∧ Action.bcast (some conn)
          (leaveMsg (handshakeName hsRead ip port) ++ "\n")
        ∈ handleClient conn ip port hsRead script := by
  constructor <;> simp [handleClient]

/-- C10: calling `start_server` while the server thread is alive only
reports "Chat server is already running.": the stop event is not cleared,
the ready flag, registry and running server are unchanged, and no second
listener or accept thread is created — whatever a fresh bind would do. -/
theorem start_on_running_server_noop (bindOk : Bool) (st : ChatState)
    (h : st.serverAlive = true) :
    startServer bindOk st = (st, StartOutcome.alreadyRunning) := by
  simp [startServer, h]

/-- C10 witness: starting a running server whose stop event is set and
whose registry holds a client changes nothing. -/
theorem start_on_running_server_noop_witness :
    startServer true ⟨true, true, true, [2]⟩
      = (⟨true, true, true, [2]⟩, StartOutcome.alreadyRunning) :=
  start_on_running_server_noop true ⟨true, true, true, [2]⟩ rfl

end IntegratedApp
